import Mathlib

/-!
Verification development for the fpl-decision-helper repository.

The repository predicts a football player's expected minutes ("xMins") in
two stages: P(start) and E[minutes | start].  Three parallel
implementations of the pipeline exist in the source:

* `src/ml-service/app.py`    — feature engineering + tiered p90 combiner;
* `src/ml-service/api.py`    — feature engineering from a schema file +
  isotonic-calibrated combiner;
* `src/python-service/app/`  — healthy-start features and survival models.

This file is a shallow embedding of the parts of those modules that the
verified properties touch.  Python floats are modelled by `ℚ` (exact
arithmetic); a pandas `NaN` is modelled by `Option ℚ` taking `none`.
Standard deviations are tracked by their square (the sample variance),
which is rational where the standard deviation is not; the deviation is
zero or NaN exactly when the tracked value is zero or `none`.
-/

namespace FPL

/-- One historical match record for a player, mirroring the `Appearance`
pydantic model shared by `ml-service/app.py` and `ml-service/api.py`
(fields `gameweek, season, started, minutes, injExit, redCard, date,
homeAway`).  `date` is a Unix timestamp in milliseconds. -/
structure Appearance where
  gameweek : Int
  season : String
  started : Bool
  minutes : Int
  injExit : Bool
  redCard : Bool
  date : Int
  homeAway : String
deriving DecidableEq

/-- `pandas.DataFrame.tail n`: the last `n` elements of a list. -/
def tailN (n : Nat) (l : List α) : List α := l.drop (l.length - n)

/-- Arithmetic mean of a list of rationals (`Series.mean`); the callers
guard against the empty list, where pandas would give NaN. -/
def listMean (xs : List ℚ) : ℚ := xs.sum / (xs.length : ℚ)

/-- Sample variance with `ddof = 1` — the square of `Series.std()`.  The
callers guard `len > 1`; below that pandas `std` is NaN. -/
def sampleVar (xs : List ℚ) : ℚ :=
  (xs.map (fun x => (x - listMean xs) ^ 2)).sum / ((xs.length : ℚ) - 1)

/-- `pandas.Series.std()` with `ddof = 1`, tracked as its square: `none`
models the NaN returned when fewer than 2 samples are present
(`features.py` line 153 computes this with no length guard). -/
def seriesStdSq (xs : List ℚ) : Option ℚ :=
  if xs.length < 2 then none else some (sampleVar xs)

/-- Slope of the degree-1 least-squares fit of `ys` against the indices
`0, 1, …` — `np.polyfit(range(len(ys)), ys, 1)[0]` in exact arithmetic. -/
def olsSlope (ys : List ℚ) : ℚ :=
  let n : ℚ := (ys.length : ℚ)
  let xs : List ℚ := (List.range ys.length).map (fun i => (i : ℚ))
  let sx := xs.sum
  let sy := ys.sum
  let sxy := ((xs.zip ys).map (fun p => p.1 * p.2)).sum
  let sxx := (xs.map (fun x => x ^ 2)).sum
  (n * sxy - sx * sy) / (n * sxx - sx ^ 2)

/-- `df.sort_values('date')` (ascending). -/
def sortByDate (l : List Appearance) : List Appearance :=
  l.insertionSort (fun a b => a.date ≤ b.date)

/-- `df.sort_values('gameweek')` (ascending), as used by
`ml-service/api.py`. -/
def sortByGameweek (l : List Appearance) : List Appearance :=
  l.insertionSort (fun a b => a.gameweek ≤ b.gameweek)

/-- `df.sort_values('date', ascending=False)`, as used by
`features.py: extract_healthy_starts`. -/
def sortByDateDesc (l : List Appearance) : List Appearance :=
  l.insertionSort (fun a b => b.date ≤ a.date)

/-- Minutes column of an appearance frame, as rationals. -/
def minutesOf (l : List Appearance) : List ℚ := l.map (fun a => (a.minutes : ℚ))

/-- 0/1 encoding of the `started` column. -/
def startedOf (l : List Appearance) : List ℚ :=
  l.map (fun a => if a.started then (1 : ℚ) else 0)

/-- `recent['minutes'].mean() if len(recent) > 0 else 0` for
`recent = df.tail w` (`app.py` line 141, `api.py` lines 143/148/153). -/
def avgMinutesW (w : Nat) (l : List Appearance) : ℚ :=
  if 0 < (tailN w l).length then listMean (minutesOf (tailN w l)) else 0

/-- `recent['started'].mean() if len(recent) > 0 else 0`
(`app.py` line 142, `api.py` lines 144/149/154). -/
def startRateW (w : Nat) (l : List Appearance) : ℚ :=
  if 0 < (tailN w l).length then listMean (startedOf (tailN w l)) else 0

/-- `recent['minutes'].std() if len(recent) > 1 else 0`
(`app.py` line 143, `api.py` lines 145/150/155), tracked as the squared
deviation (sample variance) to stay rational. -/
def consistencyW (w : Nat) (l : List Appearance) : ℚ :=
  if 1 < (tailN w l).length then sampleVar (minutesOf (tailN w l)) else 0

/-- The trend slope: `np.polyfit(range(len(recent)), recent['minutes'], 1)[0]`
when at least 2 points are present, else 0 (`app.py` lines 146-152,
`api.py` lines 146/151/156). -/
def trendW (w : Nat) (l : List Appearance) : ℚ :=
  if 2 ≤ (tailN w l).length then olsSlope (minutesOf (tailN w l)) else 0

/-- The role-lock qualification test used by both ml-service derivers:
`started and minutes >= 85`. -/
def started85 (a : Appearance) : Bool := a.started && 85 ≤ a.minutes

/-- `app.py` lines 155-161: scan backward from the most recent appearance,
counting consecutive qualifying appearances and breaking at the first
failure.  Input is the date-sorted frame. -/
def consecutive85App (l : List Appearance) : Nat :=
  (l.reverse.takeWhile started85).length

/-- `app.py` line 164: `role_lock = 1 if consecutive_85plus >= 3 else 0`,
on the date-sorted appearance frame. -/
def roleLockApp (appearances : List Appearance) : Bool :=
  3 ≤ consecutive85App (sortByDate appearances)

/-- `api.py` lines 160-165: iterate over the last 5 rows of the
gameweek-sorted frame, incrementing a counter on each qualifying row and
resetting it to 0 otherwise. -/
def consecutive85Api (l : List Appearance) : Nat :=
  (tailN 5 l).foldl (fun acc a => if started85 a then acc + 1 else 0) 0

/-- `api.py` line 168: `role_lock = 1 if consecutive_85plus >= 3 else 0`,
on the gameweek-sorted appearance frame. -/
def roleLockApi (appearances : List Appearance) : Bool :=
  3 ≤ consecutive85Api (sortByGameweek appearances)

/-- The specified role-lock condition (§8 of the spec, claim C2): the 3
most recent appearances all qualify (`started` with `minutes ≥ 85`). -/
def lastThreeLocked (l : List Appearance) : Bool :=
  3 ≤ l.length && (tailN 3 l).all started85

/-! ## python-service feature pipeline (`app/models/features.py`) -/

/-- `features.py: extract_healthy_starts` with the flags used by
`build_features_for_prediction`: keep only starts, drop injury exits and
red cards, sort by date descending, and cap to the recency window. -/
def extractHealthyStarts (appearances : List Appearance)
    (recencyWindow : Nat := 8) : List Appearance :=
  let df := sortByDateDesc
    (appearances.filter (fun a => a.started && !a.injExit && !a.redCard))
  if 0 < recencyWindow then df.take recencyWindow else df

/-- `features.py: detect_role_lock`: false when fewer than `threshold`
healthy starts exist, else require the `threshold` most recent healthy
starts to all have `minutes ≥ minutesThreshold`.  Note it scans healthy
starts, not raw appearances. -/
def detectRoleLock (healthyStarts : List Appearance)
    (threshold : Nat := 3) (minutesThreshold : Int := 85) : Bool :=
  if healthyStarts.length < threshold then false
  else (healthyStarts.take threshold).all (fun a => minutesThreshold ≤ a.minutes)

/-- A (start probability, average minutes) prior pair. -/
structure Prior where
  start_prob : ℚ
  avg_minutes : ℚ
deriving DecidableEq

/-- The per-position default priors of
`features.py: calculate_team_position_prior` (`defaults.get(position,
defaults["MID"])`). -/
def positionDefaultPrior (position : String) : Prior :=
  if position = "GK" then ⟨9/10, 88⟩
  else if position = "DEF" then ⟨7/10, 80⟩
  else if position = "MID" then ⟨3/5, 75⟩
  else if position = "FWD" then ⟨3/5, 70⟩
  else ⟨3/5, 75⟩

/-- `features.py: calculate_team_position_prior`. -/
def calculateTeamPositionPrior (teamAppearances : List Appearance)
    (position : String) : Prior :=
  if teamAppearances.length = 0 then positionDefaultPrior position
  else
    let starters := teamAppearances.filter (·.started)
    { start_prob :=
        if 0 < teamAppearances.length then
          (starters.length : ℚ) / (teamAppearances.length : ℚ)
        else 1/2
      avg_minutes :=
        if 0 < starters.length then listMean (minutesOf starters) else 70 }

/-- `features.py: calculate_recency_weights`: normalized exponential
decay weights with `alpha = 0.8`, most recent first. -/
def recencyWeights (count : Nat) : List ℚ :=
  if count = 0 then []
  else
    let ws := (List.range count).map (fun i => (4/5 : ℚ) ^ i)
    ws.map (fun w => w / ws.sum)

/-- Contextual signals consumed by `build_features_for_prediction`. -/
structure PyContext where
  congestionFlag : Bool
  intlWindowFlag : Bool
  avgDaysRestTeam : ℚ
deriving DecidableEq

/-- Squad-depth signal consumed by `build_features_for_prediction`. -/
structure PyDepth where
  viableBackupsCount : ℚ
deriving DecidableEq

/-- The feature dictionary built by `build_features_for_prediction` when
healthy starts exist (`use_prior = False`).  `minutes_std` keeps pandas
NaN semantics via `Option` and tracks the squared deviation. -/
structure PyFullFeatures where
  num_healthy_starts : Nat
  weighted_avg_minutes : ℚ
  last_3_avg_minutes : ℚ
  last_5_avg_minutes : ℚ
  minutes_std : Option ℚ
  role_lock : Bool
  start_frequency : ℚ
  congestion_flag : Bool
  intl_window_flag : Bool
  avg_days_rest : ℚ
  viable_backups : ℚ
  position_encoded : ℚ
deriving DecidableEq

/-- Result of `build_features_for_prediction`: either the prior branch
(`use_prior = True`, carrying `num_healthy_starts = 0` and the prior
values) or the full feature dictionary. -/
inductive PyFeatures where
  | prior (num_healthy_starts : Nat) (prior_start_prob prior_avg_minutes : ℚ)
  | full (f : PyFullFeatures)
deriving DecidableEq

/-- `features.py: build_features_for_prediction` (the `player_info`
argument is reduced to the position it reads). -/
def buildFeaturesForPrediction (playerAppearances : List Appearance)
    (position : String) (context : Option PyContext)
    (depthInfo : Option PyDepth) (teamAppearances : Option (List Appearance))
    (recencyWindow : Nat := 8) : PyFeatures :=
  let healthy := extractHealthyStarts playerAppearances recencyWindow
  if healthy.length = 0 then
    match teamAppearances with
    | some ta =>
        let p := calculateTeamPositionPrior ta position
        .prior 0 p.start_prob p.avg_minutes
    | none => .prior 0 (1/2) 70
  else
    let weights := recencyWeights healthy.length
    .full {
      num_healthy_starts := healthy.length
      weighted_avg_minutes :=
        (((minutesOf healthy).zip weights).map (fun p => p.1 * p.2)).sum
      last_3_avg_minutes := listMean (minutesOf (healthy.take 3))
      last_5_avg_minutes := listMean (minutesOf (healthy.take 5))
      minutes_std := seriesStdSq (minutesOf healthy)
      role_lock := detectRoleLock healthy 3 85
      start_frequency :=
        let allRecent := (sortByDateDesc playerAppearances).take recencyWindow
        if 0 < allRecent.length then
          (healthy.length : ℚ) / (allRecent.length : ℚ)
        else 0
      congestion_flag := (context.map (·.congestionFlag)).getD false
      intl_window_flag := (context.map (·.intlWindowFlag)).getD false
      avg_days_rest := (context.map (·.avgDaysRestTeam)).getD 7
      viable_backups := (depthInfo.map (·.viableBackupsCount)).getD 2
      position_encoded :=
        if position = "GK" then 0
        else if position = "DEF" then 1
        else if position = "MID" then 2
        else if position = "FWD" then 3
        else 2 }

/-! ## Combiner arithmetic -/

/-- `np.clip x lo hi`. -/
def npClip (x lo hi : ℚ) : ℚ := min (max x lo) hi

/-- The ml-service combined estimate: `xmins = start_proba * minutes`
after `minutes = np.clip(…, 0, 90)` (`app.py` lines 334-337, `api.py`
lines 289-294).  `minutesCal` is the (calibrated) stage-two estimate
before clipping. -/
def xminsMl (startProba minutesCal : ℚ) : ℚ :=
  startProba * npClip minutesCal 0 90

/-- The python-service stage-two point estimate:
`np.clip(self.model.predict_expectation(df).values, 0, 95)`
(`minutes_given_start.py` lines 119-126). -/
def xminsStartPy (rawExpectation : ℚ) : ℚ := npClip rawExpectation 0 95

/-- The python-service combined estimate:
`effective_xmins = start_prob * xmins_start` (`predict.py` line 63). -/
def xminsPy (startProb rawExpectation : ℚ) : ℚ :=
  startProb * xminsStartPy rawExpectation

/-- `app.py` lines 339-348: the tiered full-match probability. -/
def p90App (startProba minutesIfStarted : ℚ) : ℚ :=
  if 85 ≤ minutesIfStarted then 85/100 * startProba
  else if 80 ≤ minutesIfStarted then 3/5 * startProba
  else if 70 ≤ minutesIfStarted then 35/100 * startProba
  else 1/10 * startProba

/-- `api.py` line 297:
`p90 = start_proba if minutes_pred >= 85 else start_proba * 0.6`. -/
def p90Api (startProba minutesPred : ℚ) : ℚ :=
  if 85 ≤ minutesPred then startProba else 3/5 * startProba

/-- The tier factor stated by the spec (§4.6) and by claim C5, written
from the spec's words for comparison with the code: ≥85 → 0.85,
≥80 → 0.60, ≥70 → 0.35, else 0.10. -/
def specTierFactor (minutesIfStarted : ℚ) : ℚ :=
  if 85 ≤ minutesIfStarted then 85/100
  else if 80 ≤ minutesIfStarted then 3/5
  else if 70 ≤ minutesIfStarted then 35/100
  else 1/10

/-- `api.py` line 300: `uncertainty_lo = max(0, xmins - 10)`. -/
def uncertaintyLoMl (xmins : ℚ) : ℚ := max 0 (xmins - 10)

/-- `api.py` line 301: `uncertainty_hi = min(90, xmins + 10)`. -/
def uncertaintyHiMl (xmins : ℚ) : ℚ := min 90 (xmins + 10)

/-- Round-half-to-even on rationals, the semantics of Python `round`. -/
def roundHalfEven (q : ℚ) : ℤ :=
  let f := ⌊q⌋
  let r := q - f
  if r < 1/2 then f
  else if 1/2 < r then f + 1
  else if f % 2 = 0 then f else f + 1

/-- Python `round(q, 1)`. -/
def pyRound1 (q : ℚ) : ℚ := ((roundHalfEven (10 * q) : ℤ) : ℚ) / 10

/-- `predict.py` line 83: `round(effective_xmins - 10, 1)` — no clamping. -/
def uncertaintyLoPy (xmins : ℚ) : ℚ := pyRound1 (xmins - 10)

/-- `predict.py` line 84: `round(effective_xmins + 10, 1)` — no clamping. -/
def uncertaintyHiPy (xmins : ℚ) : ℚ := pyRound1 (xmins + 10)

/-- The sparse-data flag of both ml-service predict endpoints:
`len(request.appearances) < 5` (`app.py` line 419, `api.py` line 304). -/
def sparseFlagMl (appearances : List Appearance) : Bool :=
  appearances.length < 5

/-! ## Stage models (`start_probability.py`, `minutes_given_start.py`)

The sklearn/lifelines estimators themselves are external fits; the
embedding keeps exactly the state the Python classes mutate
(`feature_names`, `is_trained`, the fitted artefacts) and the design
matrix handed to them, which is what the schema-handling and
insufficient-data claims are about.  A fitted sklearn `StandardScaler`
records the feature count it was fit on and `transform` rejects input of
any other width (but performs no name check); `scaler_dim` models that
record.  `fit_data` stands for the fitted parameters: the fit is a
deterministic function of the data it is given. -/

/-- A pandas DataFrame: a column list plus rows of named cells.
`lookup0` reads a cell with `fillna(0)` semantics. -/
structure Frame where
  columns : List String
  rows : List (List (String × ℚ))
deriving DecidableEq

/-- Read a named cell of a row, with missing/NaN cells as 0
(the models apply `.fillna(0)` before use). -/
def lookup0 (row : List (String × ℚ)) (c : String) : ℚ :=
  ((row.find? (fun p => p.1 = c)).map (·.2)).getD 0

/-- `start_probability.py` lines 37-50: the Stage A feature columns. -/
def stageAFeatureCols : List String :=
  ["num_healthy_starts", "weighted_avg_minutes", "last_3_avg_minutes",
   "last_5_avg_minutes", "minutes_std", "role_lock", "start_frequency",
   "congestion_flag", "intl_window_flag", "avg_days_rest",
   "viable_backups", "position_encoded"]

/-- `minutes_given_start.py` lines 42-54: the Stage B feature columns. -/
def stageBFeatureCols : List String :=
  ["num_healthy_starts", "weighted_avg_minutes", "last_3_avg_minutes",
   "last_5_avg_minutes", "minutes_std", "role_lock",
   "congestion_flag", "intl_window_flag", "avg_days_rest",
   "viable_backups", "position_encoded"]

/-- `[col for col in feature_cols if col in data.columns]`
(`start_probability.py` line 53). -/
def availableA (cols : List String) : List String :=
  stageAFeatureCols.filter (fun c => cols.contains c)

/-- `[col for col in feature_cols if col in data.columns]`
(`minutes_given_start.py` line 57). -/
def availableB (cols : List String) : List String :=
  stageBFeatureCols.filter (fun c => cols.contains c)

/-- Diagnostics returned by `train`; the sklearn-computed scores
(accuracy, cross-validated AUC, concordance) are outputs of the external
fit and are not modelled. -/
structure TrainingMetrics where
  n_samples : Nat
  n_features : Nat
deriving DecidableEq

/-- The mutable state of `StartProbabilityModel`. -/
structure StartProbabilityModel where
  feature_names : List String
  is_trained : Bool
  scaler_dim : Option Nat
  fit_data : Option (List (List ℚ) × List ℚ)
deriving DecidableEq

/-- `StartProbabilityModel.__init__`. -/
def StartProbabilityModel.init : StartProbabilityModel :=
  { feature_names := [], is_trained := false,
    scaler_dim := none, fit_data := none }

/-- `start_probability.py: prepare_features`: recompute
`self.feature_names` from the columns present in `data` (silently
keeping only the available subset) and extract the matrix. -/
def StartProbabilityModel.prepareFeatures (m : StartProbabilityModel)
    (data : Frame) : StartProbabilityModel × List (List ℚ) :=
  let av := availableA data.columns
  ({ m with feature_names := av },
   data.rows.map (fun r => av.map (lookup0 r)))

/-- `start_probability.py: train`: raise the insufficient-data error
below 50 samples (before any state mutation), else fit scaler and model
and set `is_trained`. -/
def StartProbabilityModel.train (m : StartProbabilityModel)
    (trainingData : Frame) :
    Except String TrainingMetrics × StartProbabilityModel :=
  if trainingData.rows.length < 50 then
    (.error "Insufficient training data (need at least 50 samples)", m)
  else
    let (m1, X) := m.prepareFeatures trainingData
    let y := trainingData.rows.map (fun r => lookup0 r "started")
    (.ok { n_samples := trainingData.rows.length
           n_features := m1.feature_names.length },
     { m1 with is_trained := true,
               scaler_dim := some m1.feature_names.length,
               fit_data := some (X, y) })

/-- `start_probability.py: predict`: raise only when untrained, then
rebuild the matrix from whatever columns the input has; the scaler's
`transform` rejects a width differing from the fitted width but checks
nothing else.  On success the result is the matrix handed to
`predict_proba`. -/
def StartProbabilityModel.predict (m : StartProbabilityModel)
    (features : Frame) :
    Except String (List (List ℚ)) × StartProbabilityModel :=
  if m.is_trained = false then
    (.error "Model not trained. Call train() first.", m)
  else
    let (m1, X) := m.prepareFeatures features
    match m.scaler_dim with
    | none => (.error "StandardScaler is not fitted", m1)
    | some d =>
        if m1.feature_names.length = d then (.ok X, m1)
        else
          (.error "X has a different number of features than fitted", m1)

/-- The mutable state of `MinutesGivenStartModel`. -/
structure MinutesGivenStartModel where
  model_type : String
  feature_names : List String
  is_trained : Bool
  fit_data : Option (List (List ℚ) × List ℚ × List ℚ)
deriving DecidableEq

/-- `MinutesGivenStartModel.__init__` with the default service choice
(`model_type = "weibull"`). -/
def MinutesGivenStartModel.init : MinutesGivenStartModel :=
  { model_type := "weibull", feature_names := [],
    is_trained := false, fit_data := none }

/-- `minutes_given_start.py: prepare_features`: available-column matrix
plus the survival columns `duration = minutes.clip(upper=95)` and
`event = (minutes < 90)`. -/
def MinutesGivenStartModel.prepareFeatures (m : MinutesGivenStartModel)
    (data : Frame) :
    MinutesGivenStartModel × (List (List ℚ) × List ℚ × List ℚ) :=
  let av := availableB data.columns
  let minutes := data.rows.map (fun r => lookup0 r "minutes")
  ({ m with feature_names := av },
   (data.rows.map (fun r => av.map (lookup0 r)),
    minutes.map (fun v => min v 95),
    minutes.map (fun v => if v < 90 then 1 else 0)))

/-- `minutes_given_start.py: train`: the same 50-sample guard before any
mutation, then fit the survival model. -/
def MinutesGivenStartModel.train (m : MinutesGivenStartModel)
    (trainingData : Frame) :
    Except String TrainingMetrics × MinutesGivenStartModel :=
  if trainingData.rows.length < 50 then
    (.error "Insufficient training data (need at least 50 samples)", m)
  else
    let (m1, d) := m.prepareFeatures trainingData
    (.ok { n_samples := trainingData.rows.length
           n_features := m1.feature_names.length },
     { m1 with is_trained := true, fit_data := some d })

/-! ## `ml-service/api.py` feature engineering -/

/-- Ambient wall-clock state read by the derivers through
`datetime.now()`: the calendar month and the Unix timestamp in
milliseconds.  The embedding passes it explicitly. -/
structure NowTime where
  month : Int
  timestampMs : Int
deriving DecidableEq

/-- The `all_features` dictionary of `api.py: engineer_features`
(lines 129-258) for a nonempty, gameweek-sorted appearance frame `df`. -/
def allFeaturesApi (position : String) (price : ℚ) (gameweek : Int)
    (isHome : Bool) (df : List Appearance) (now : NowTime) :
    List (String × ℚ) :=
  let last5 := tailN 5 df
  let lastApp := df.getLast?
  [("pos_GK", if position = "GK" then 1 else 0),
   ("pos_DEF", if position = "DEF" then 1 else 0),
   ("pos_MID", if position = "MID" then 1 else 0),
   ("pos_FWD", if position = "FWD" then 1 else 0),
   ("avg_minutes_last_3", avgMinutesW 3 df),
   ("start_rate_last_3", startRateW 3 df),
   ("consistency_last_3", consistencyW 3 df),
   ("trend_last_3", trendW 3 df),
   ("avg_minutes_last_5", avgMinutesW 5 df),
   ("start_rate_last_5", startRateW 5 df),
   ("consistency_last_5", consistencyW 5 df),
   ("trend_last_5", trendW 5 df),
   ("avg_minutes_last_8", avgMinutesW 8 df),
   ("start_rate_last_8", startRateW 8 df),
   ("consistency_last_8", consistencyW 8 df),
   ("trend_last_8", trendW 8 df),
   ("role_lock", if 3 ≤ consecutive85Api df then 1 else 0),
   ("consecutive_85plus", (consecutive85Api df : ℚ)),
   ("prev_gw_minutes", ((lastApp.map (fun a => (a.minutes : ℚ))).getD 0)),
   ("prev_gw_started",
     if (lastApp.map (·.started)).getD false then 1 else 0),
   ("gameweek_norm", ((gameweek : ℚ) - 1) / 37),
   ("month_norm", ((now.month : ℚ) - 1) / 11),
   ("is_home", if isHome then 1 else 0),
   ("goals_last_5", 0), ("assists_last_5", 0), ("xG_last_5", 0),
   ("xA_last_5", 0), ("goal_involvement_last_5", 0), ("xGI_last_5", 0),
   ("days_since_last_game", 7),
   ("minutes_last_7_days", ((lastApp.map (fun a => (a.minutes : ℚ))).getD 0)),
   ("games_last_2_gw", min (df.length : ℚ) 2),
   ("team_rotation_rate", 3/10),
   ("price_norm", (price - 4) / 11),
   ("ict_last_5", 0), ("influence_last_5", 0), ("creativity_last_5", 0),
   ("threat_last_5", 0), ("bonus_last_5", 0),
   ("goal_diff", 0), ("is_blowout", 0),
   ("is_red_card", if (lastApp.map (·.redCard)).getD false then 1 else 0),
   ("is_early_injury_sub",
     if (lastApp.map (·.injExit)).getD false then 1 else 0),
   ("opponent_strength", 3), ("opponent_strength_norm", 1/2),
   ("is_top6_opponent", 0),
   ("early_sub_rate_last_5", 0),
   ("full_90_rate_last_5",
     if 0 < last5.length then
       listMean (last5.map (fun a => if 85 ≤ a.minutes then (1 : ℚ) else 0))
     else 0)]

/-- `api.py: engineer_features`: reject an empty appearance list with the
HTTP 400 `"No appearance data provided"`, else sort by gameweek, build
`all_features` and emit one value per schema name (`start_features`),
filling names absent from the dictionary with 0 (lines 260-270). -/
def engineerFeaturesApi (position : String) (price : ℚ) (gameweek : Int)
    (isHome : Bool) (appearances : List Appearance)
    (startFeatures : List String) (now : NowTime) :
    Except String (List ℚ) :=
  if appearances.length = 0 then .error "No appearance data provided"
  else
    let df := sortByGameweek appearances
    let allFeatures := allFeaturesApi position price gameweek isHome df now
    .ok (startFeatures.map (fun f => lookup0 allFeatures f))

/-! ## `ml-service/app.py` feature engineering -/

/-- The 41-entry feature dictionary built by
`app.py: engineer_features_from_appearances`.  `consistency_last_w`
tracks the squared deviation (see the header note). -/
structure AppFeatures where
  avg_minutes_last_3 : ℚ
  start_rate_last_3 : ℚ
  consistency_last_3 : ℚ
  trend_last_3 : ℚ
  avg_minutes_last_5 : ℚ
  start_rate_last_5 : ℚ
  consistency_last_5 : ℚ
  trend_last_5 : ℚ
  avg_minutes_last_8 : ℚ
  start_rate_last_8 : ℚ
  consistency_last_8 : ℚ
  trend_last_8 : ℚ
  consecutive_85plus : ℚ
  role_lock : ℚ
  prev_gw_minutes : ℚ
  prev_gw_started : ℚ
  pos_GK : ℚ
  pos_DEF : ℚ
  pos_MID : ℚ
  pos_FWD : ℚ
  gameweek_norm : ℚ
  month_norm : ℚ
  is_home : ℚ
  goals_last_5 : ℚ
  assists_last_5 : ℚ
  xG_last_5 : ℚ
  xA_last_5 : ℚ
  goal_involvement_last_5 : ℚ
  xGI_last_5 : ℚ
  days_since_last_game : ℚ
  minutes_last_7_days : ℚ
  games_last_2_gw : ℚ
  team_rotation_rate : ℚ
  price_norm : ℚ
  ict_last_5 : ℚ
  influence_last_5 : ℚ
  bonus_last_5 : ℚ
  goal_diff : ℚ
  is_blowout : ℚ
  is_red_card : ℚ
  is_early_injury_sub : ℚ
deriving DecidableEq

/-- `app.py: get_default_features`: the defaults returned for a player
with no history (note `month_norm` still reads the clock). -/
def getDefaultFeatures (position : String) (price : ℚ) (now : NowTime) :
    AppFeatures where
  avg_minutes_last_3 := 0
  start_rate_last_3 := 0
  consistency_last_3 := 0
  trend_last_3 := 0
  avg_minutes_last_5 := 0
  start_rate_last_5 := 0
  consistency_last_5 := 0
  trend_last_5 := 0
  avg_minutes_last_8 := 0
  start_rate_last_8 := 0
  consistency_last_8 := 0
  trend_last_8 := 0
  consecutive_85plus := 0
  role_lock := 0
  prev_gw_minutes := 0
  prev_gw_started := 0
  pos_GK := if position = "GK" then 1 else 0
  pos_DEF := if position = "DEF" then 1 else 0
  pos_MID := if position = "MID" then 1 else 0
  pos_FWD := if position = "FWD" then 1 else 0
  gameweek_norm := 0
  month_norm := (now.month : ℚ) / 12
  is_home := 1
  goals_last_5 := 0
  assists_last_5 := 0
  xG_last_5 := 0
  xA_last_5 := 0
  goal_involvement_last_5 := 0
  xGI_last_5 := 0
  days_since_last_game := 7
  minutes_last_7_days := 0
  games_last_2_gw := 0
  team_rotation_rate := 1/5
  price_norm := (price - 4) / (15 - 4)
  ict_last_5 := 0
  influence_last_5 := 0
  bonus_last_5 := 0
  goal_diff := 0
  is_blowout := 0
  is_red_card := 0
  is_early_injury_sub := 0

/-- `app.py: engineer_features_from_appearances` for a nonempty history:
sort by date, window statistics, backward role-lock scan, lagged target,
one-hot position, clock-derived temporal and physical-load features. -/
def engineerFeaturesAppCore (appearances : List Appearance)
    (position : String) (isHome : Bool) (gameweek : Int) (price : ℚ)
    (now : NowTime) : AppFeatures :=
  let df := sortByDate appearances
  let prevGw := df.getLast?
  { avg_minutes_last_3 := avgMinutesW 3 df
    start_rate_last_3 := startRateW 3 df
    consistency_last_3 := consistencyW 3 df
    trend_last_3 := trendW 3 df
    avg_minutes_last_5 := avgMinutesW 5 df
    start_rate_last_5 := startRateW 5 df
    consistency_last_5 := consistencyW 5 df
    trend_last_5 := trendW 5 df
    avg_minutes_last_8 := avgMinutesW 8 df
    start_rate_last_8 := startRateW 8 df
    consistency_last_8 := consistencyW 8 df
    trend_last_8 := trendW 8 df
    consecutive_85plus := (consecutive85App df : ℚ)
    role_lock := if 3 ≤ consecutive85App df then 1 else 0
    prev_gw_minutes := (prevGw.map (fun a => (a.minutes : ℚ))).getD 0
    prev_gw_started :=
      if (prevGw.map (·.started)).getD false then 1 else 0
    pos_GK := if position = "GK" then 1 else 0
    pos_DEF := if position = "DEF" then 1 else 0
    pos_MID := if position = "MID" then 1 else 0
    pos_FWD := if position = "FWD" then 1 else 0
    gameweek_norm := (gameweek : ℚ) / 38
    month_norm := (now.month : ℚ) / 12
    is_home := if isHome then 1 else 0
    goals_last_5 := 0
    assists_last_5 := 0
    xG_last_5 := 0
    xA_last_5 := 0
    goal_involvement_last_5 := 0
    xGI_last_5 := 0
    days_since_last_game :=
      max 0 (((now.timestampMs : ℚ) -
        ((prevGw.map (fun a => (a.date : ℚ))).getD 0)) / 86400000)
    minutes_last_7_days :=
      (minutesOf (df.filter
        (fun a => now.timestampMs - 604800000 ≤ a.date))).sum
    games_last_2_gw := ((df.drop (df.length - 2)).length : ℚ)
    team_rotation_rate := 1/5
    price_norm := (price - 4) / (15 - 4)
    ict_last_5 := 0
    influence_last_5 := 0
    bonus_last_5 := 0
    goal_diff := 0
    is_blowout := 0
    is_red_card := if (prevGw.map (·.redCard)).getD false then 1 else 0
    is_early_injury_sub :=
      if (prevGw.map (·.injExit)).getD false then 1 else 0 }

/-- `app.py: engineer_features_from_appearances`: the default path for
an empty history, else the full computation. -/
def engineerFeaturesApp (appearances : List Appearance) (position : String)
    (isHome : Bool) (gameweek : Int) (price : ℚ) (now : NowTime) :
    AppFeatures :=
  if appearances.isEmpty then getDefaultFeatures position price now
  else engineerFeaturesAppCore appearances position isHome gameweek price now

/-- Zero the three clock-derived fields of an `AppFeatures` record; two
records agree after `stripTime` exactly when they agree on every feature
that is not read from `datetime.now()`. -/
def stripTime (f : AppFeatures) : AppFeatures :=
  { f with month_norm := 0, days_since_last_game := 0,
           minutes_last_7_days := 0 }

/-- A concrete appearance record, for concrete evaluations. -/
def mkApp (gw : Int) (d : Int) (st : Bool) (mins : Int) : Appearance :=
  { gameweek := gw, season := "2024-25", started := st, minutes := mins,
    injExit := false, redCard := false, date := d, homeAway := "H" }

/-- The `role_lock` flag carried by a `build_features_for_prediction`
result (absent, hence false, on the prior branch). -/
def PyFeatures.roleLockFlag : PyFeatures → Bool
  | .prior _ _ _ => false
  | .full f => f.role_lock

/-- The `minutes_std` cell of a `build_features_for_prediction` result:
`none` when the prior branch was taken, `some v` otherwise, where `v` is
the (NaN-aware) deviation value. -/
def PyFeatures.minutesStdField : PyFeatures → Option (Option ℚ)
  | .prior _ _ _ => none
  | .full f => some f.minutes_std

/-! ## Helper lemmas -/

/-- A prefix of length `n` survives `takeWhile p` exactly when the list
is that long and its first `n` elements all satisfy `p`. -/
theorem le_takeWhile_iff (p : α → Bool) (n : ℕ) (m : List α) :
    n ≤ (m.takeWhile p).length ↔ n ≤ m.length ∧ (m.take n).all p = true := by
  induction n generalizing m with
  | zero => simp
  | succ k ih =>
    cases m with
    | nil => simp
    | cons a t =>
      cases h : p a with
      | true =>
        simp [List.takeWhile_cons, h, Nat.succ_le_succ_iff, ih t]
      | false =>
        simp [List.takeWhile_cons, h]

/-- `takeWhile p` keeps the whole list exactly when `p` holds everywhere. -/
theorem takeWhile_length_eq_iff (p : α → Bool) (l : List α) :
    (l.takeWhile p).length = l.length ↔ l.all p = true := by
  induction l with
  | nil => simp
  | cons a t ih =>
    cases h : p a with
    | true => simpa [List.takeWhile_cons, h] using ih
    | false =>
      simp only [List.takeWhile_cons, h]
      constructor
      · intro hlen; simp at hlen
      · intro hall; simp [h] at hall

/-- The reset-on-failure counter of `api.py` computes the length of the
longest all-`p` suffix (the trailing run). -/
theorem foldl_reset_eq (p : α → Bool) (m : List α) (acc : ℕ) :
    m.foldl (fun acc a => if p a then acc + 1 else 0) acc =
      if m.all p then acc + m.length else (m.reverse.takeWhile p).length := by
  induction m generalizing acc with
  | nil => simp
  | cons a t ih =>
    rw [List.foldl_cons, ih]
    have key : ((t.reverse.takeWhile p).length = t.length) ↔
        t.all p = true := by
      rw [← List.length_reverse t, takeWhile_length_eq_iff, List.all_reverse]
    cases h : p a with
    | true =>
      by_cases ht : t.all p = true
      · simp only [h, ht, List.all_cons, Bool.true_and, if_true,
          List.length_cons]
        omega
      · simp only [h, ht, List.all_cons, Bool.true_and, Bool.false_eq_true,
          if_false, if_true, List.reverse_cons, List.takeWhile_append,
          List.length_reverse]
        rw [if_neg (fun hh => ht (key.mp hh))]
    | false =>
      have hall : (a :: t).all p = false := by simp [h]
      simp only [h, hall, Bool.false_eq_true, if_false,
        List.reverse_cons, List.takeWhile_append, List.length_reverse]
      by_cases ht : t.all p = true
      · rw [if_pos (key.mpr ht), ht, if_pos rfl]
        simp [List.takeWhile_cons, h]
      · rw [if_neg (fun hh => ht (key.mp hh)), if_neg ht]

/-- With a zero accumulator, the reset counter is exactly the trailing
run length. -/
theorem foldl_reset_zero (p : α → Bool) (m : List α) :
    m.foldl (fun acc a => if p a then acc + 1 else 0) 0 =
      (m.reverse.takeWhile p).length := by
  rw [foldl_reset_eq]
  by_cases ht : m.all p = true
  · rw [if_pos ht, Nat.zero_add]
    have := (takeWhile_length_eq_iff p m.reverse).mpr
      (by rw [List.all_reverse]; exact ht)
    rw [this, List.length_reverse]
  · rw [if_neg (by simp [ht])]

/-- Nested pandas tails collapse to the smaller tail. -/
theorem tailN_tailN (n m : ℕ) (l : List α) (h : n ≤ m) :
    tailN n (tailN m l) = tailN n l := by
  unfold tailN
  rw [List.drop_drop, List.length_drop]
  congr 1
  omega

/-- `tailN` never exceeds the window size nor the list length. -/
theorem tailN_length (n : ℕ) (l : List α) :
    (tailN n l).length = l.length - (l.length - n) := by
  simp [tailN]

/-- The backward consecutive-qualifier scan reaches 3 exactly when the
last three appearances all qualify: the core of claim C2 for the
`app.py` deriver. -/
theorem consecutive85App_ge3_iff (l : List Appearance) :
    3 ≤ consecutive85App l ↔ lastThreeLocked l = true := by
  unfold consecutive85App lastThreeLocked
  rw [le_takeWhile_iff, List.take_reverse, List.all_reverse,
    List.length_reverse]
  simp [tailN]

/-- The reset counter over the last five appearances reaches 3 exactly
when the last three all qualify: the core of claim C2 for the `api.py`
deriver. -/
theorem consecutive85Api_ge3_iff (l : List Appearance) :
    3 ≤ consecutive85Api l ↔ lastThreeLocked l = true := by
  unfold consecutive85Api
  rw [foldl_reset_zero]
  have h3 : 3 ≤ (5 : ℕ) := by omega
  calc 3 ≤ ((tailN 5 l).reverse.takeWhile started85).length
      ↔ lastThreeLocked (tailN 5 l) = true := consecutive85App_ge3_iff _
    _ ↔ lastThreeLocked l = true := by
        unfold lastThreeLocked
        rw [tailN_tailN 3 5 l h3, tailN_length]
        constructor
        · intro h
          simp only [Bool.and_eq_true, decide_eq_true_eq] at *
          exact ⟨by omega, h.2⟩
        · intro h
          simp only [Bool.and_eq_true, decide_eq_true_eq] at *
          exact ⟨by omega, h.2⟩

/-! ## Claims -/

/-- Claim C2 (counterexample): the python-service role-lock flag is
computed over healthy starts only, so a history ending in a bench
appearance (most recent appearance not started) still sets the flag —
refuting the claimed "bench anywhere in the trailing run makes the flag
false".  Here the 3 starts before the bench game were all 90-minute
starts. -/
theorem roleLock_py_bench_counterexample :
    (buildFeaturesForPrediction
        [mkApp 1 1 true 90, mkApp 2 2 true 90, mkApp 3 3 true 90,
         mkApp 4 4 false 0] "MID" none none none 8).roleLockFlag = true ∧
    lastThreeLocked (sortByDate
        [mkApp 1 1 true 90, mkApp 2 2 true 90, mkApp 3 3 true 90,
         mkApp 4 4 false 0]) = false := by
  decide

/-- Claim C2 (amended): in both ml-service derivers the role-lock flag is
true iff the 3 most recent appearances of the supplied (pre-period)
history are all starts with minutes ≥ 85 — a single bench game or short
start in that trailing run makes it false.  (The python-service
`detect_role_lock` instead scans the 3 most recent healthy starts, see
the counterexample.) -/
theorem roleLock_ml_iff_lastThree (h : List Appearance) :
    (roleLockApp h = true ↔ lastThreeLocked (sortByDate h) = true) ∧
    (roleLockApi h = true ↔ lastThreeLocked (sortByGameweek h) = true) := by
  constructor
  · simp only [roleLockApp, decide_eq_true_eq]
    exact consecutive85App_ge3_iff _
  · simp only [roleLockApi, decide_eq_true_eq]
    exact consecutive85Api_ge3_iff _

/-- Claim C3 (counterexample): the python-service stage-two estimate is
clipped to `[0, 95]`, not `[0, 90]`, so with a calibrated start
probability of 1 (within the claimed `[0,1]` range) and a raw
conditional-minutes estimate of 95 the combined estimate is 95 > 90. -/
theorem xminsPy_exceeds_90_counterexample :
    (0 : ℚ) ≤ 1 ∧ (1 : ℚ) ≤ 1 ∧ xminsPy 1 95 = 95 ∧
      ¬ xminsPy 1 95 ≤ 90 := by
  norm_num [xminsPy, xminsStartPy, npClip]

/-- Claim C3 (amended): for a start probability in `[0,1]` and any raw
conditional-minutes estimate, the ml-service combined estimate lies in
`[0, 90]` (stage two is clipped to 90 there), while the python-service
combined estimate lies in `[0, 95]` (its survival model clips to 95). -/
theorem xmins_bounds (p m : ℚ) (h0 : 0 ≤ p) (h1 : p ≤ 1) :
    (0 ≤ xminsMl p m ∧ xminsMl p m ≤ 90) ∧
    (0 ≤ xminsPy p m ∧ xminsPy p m ≤ 95) := by
  unfold xminsMl xminsPy xminsStartPy npClip
  have c90a : (0 : ℚ) ≤ min (max m 0) 90 :=
    le_min (le_max_right m 0) (by norm_num)
  have c90b : min (max m 0) 90 ≤ 90 := min_le_right _ _
  have c95a : (0 : ℚ) ≤ min (max m 0) 95 :=
    le_min (le_max_right m 0) (by norm_num)
  have c95b : min (max m 0) 95 ≤ 95 := min_le_right _ _
  refine ⟨⟨mul_nonneg h0 c90a, ?_⟩, ⟨mul_nonneg h0 c95a, ?_⟩⟩
  · calc p * min (max m 0) 90 ≤ 1 * min (max m 0) 90 :=
        mul_le_mul_of_nonneg_right h1 c90a
      _ = min (max m 0) 90 := one_mul _
      _ ≤ 90 := c90b
  · calc p * min (max m 0) 95 ≤ 1 * min (max m 0) 95 :=
        mul_le_mul_of_nonneg_right h1 c95a
      _ = min (max m 0) 95 := one_mul _
      _ ≤ 95 := c95b

/-- Witness for `xmins_bounds` at `p = 1/2`, `m = 100`. -/
theorem xmins_bounds_witness :
    ((0 : ℚ) ≤ 1/2 ∧ (1/2 : ℚ) ≤ 1) ∧
    ((0 ≤ xminsMl (1/2) 100 ∧ xminsMl (1/2) 100 ≤ 90) ∧
     (0 ≤ xminsPy (1/2) 100 ∧ xminsPy (1/2) 100 ≤ 95)) :=
  ⟨⟨by norm_num, by norm_num⟩,
   xmins_bounds (1/2) 100 (by norm_num) (by norm_num)⟩

/-- Claim C5 (counterexample): the `api.py` combiner does not use the
claimed four-tier factors — at a conditional-minutes estimate of 60 it
returns `0.6 × P(start)` where the claimed tiering gives
`0.10 × P(start)` (and at ≥ 85 it returns `1.0 × P(start)`, not 0.85). -/
theorem p90Api_tier_counterexample :
    p90Api 1 60 = 3/5 ∧ specTierFactor 60 * 1 = 1/10 ∧
      p90Api 1 90 = 1 ∧ (3/5 : ℚ) ≠ 1/10 ∧ (1 : ℚ) ≠ 85/100 := by
  norm_num [p90Api, specTierFactor]

/-- Claim C5 (amended): the `app.py` combiner returns exactly
`startProb × tierFactor(E[minutes|start])` with the claimed tiers
0.85 / 0.60 / 0.35 / 0.10; the `api.py` combiner instead scales by 1.0
when the estimate is ≥ 85 and by 0.6 otherwise. -/
theorem p90_tiering (p m : ℚ) :
    p90App p m = specTierFactor m * p ∧
    p90Api p m = (if 85 ≤ m then 1 else 3/5) * p := by
  unfold p90App p90Api specTierFactor
  constructor <;> split_ifs <;> ring

/-- Claim C6 (counterexample): the python-service deriver computes
`minutes_std` with pandas `std()` and no length guard, so a filtered
history with exactly one (healthy-start) entry yields NaN
(`minutes_std = none`), not 0 — refuting "never NaN or undefined". -/
theorem minutesStd_nan_counterexample :
    (extractHealthyStarts [mkApp 1 1 true 90] 8).length = 1 ∧
    (buildFeaturesForPrediction [mkApp 1 1 true 90] "MID" none none
        none 8).minutesStdField = some none := by
  decide

/-- Claim C6 (amended): in the ml-service derivers the windowed
consistency and trend features are exactly 0 whenever the window holds
fewer than 2 entries; the python-service `minutes_std` over a
single-entry list is NaN (`none`) instead. -/
theorem consistency_trend_default_zero (w : Nat) (l : List Appearance)
    (x : ℚ) (_hw : w = 3 ∨ w = 5 ∨ w = 8)
    (h2 : (tailN w l).length < 2) :
    consistencyW w l = 0 ∧ trendW w l = 0 ∧ seriesStdSq [x] = none := by
  refine ⟨?_, ?_, ?_⟩
  · unfold consistencyW
    rw [if_neg]
    omega
  · unfold trendW
    rw [if_neg]
    omega
  · unfold seriesStdSq
    rw [if_pos]
    simp

/-- Witness for `consistency_trend_default_zero` at window 3 and a
single-appearance history. -/
theorem consistency_trend_default_zero_witness :
    ((3 : Nat) = 3 ∨ (3 : Nat) = 5 ∨ (3 : Nat) = 8) ∧
    (tailN 3 [mkApp 1 1 true 90]).length < 2 ∧
    (consistencyW 3 [mkApp 1 1 true 90] = 0 ∧
     trendW 3 [mkApp 1 1 true 90] = 0 ∧ seriesStdSq [(0 : ℚ)] = none) :=
  ⟨Or.inl rfl, by decide,
   consistency_trend_default_zero 3 [mkApp 1 1 true 90] 0 (Or.inl rfl)
     (by decide)⟩

/-- Claim C7 (counterexample): the python-service uncertainty band is the
raw `±10` interval with no clamping — a combined estimate of 0 yields a
lower bound of −10 < 0 (and an estimate of 85 yields an upper bound of
95 > 90). -/
theorem uncertaintyPy_unclamped_counterexample :
    uncertaintyLoPy 0 = -10 ∧ ¬ (0 ≤ uncertaintyLoPy 0) ∧
    uncertaintyHiPy 85 = 95 ∧ ¬ (uncertaintyHiPy 85 ≤ 90) := by
  have h1 : uncertaintyLoPy 0 = -10 := by
    unfold uncertaintyLoPy pyRound1 roundHalfEven
    norm_num
  have h2 : uncertaintyHiPy 85 = 95 := by
    unfold uncertaintyHiPy pyRound1 roundHalfEven
    norm_num
  refine ⟨h1, by rw [h1]; norm_num, h2, by rw [h2]; norm_num⟩

/-- Claim C7 (amended): in the ml-service predict path the uncertainty
bounds are clamped for every combined estimate: the lower bound is ≥ 0
and the upper bound is ≤ 90.  (The python-service path returns the raw
`±10` band, see the counterexample.) -/
theorem uncertainty_ml_clamped (x : ℚ) :
    0 ≤ uncertaintyLoMl x ∧ uncertaintyHiMl x ≤ 90 :=
  ⟨le_max_left _ _, min_le_left _ _⟩

/-- Claim C10 (confirmed): in both ml-service combiners the returned
full-match probability never exceeds the returned start probability,
since every tier factor is ≤ 1. -/
theorem p90_le_startProb (p m : ℚ) (h0 : 0 ≤ p) :
    p90App p m ≤ p ∧ p90Api p m ≤ p := by
  unfold p90App p90Api
  constructor <;> split_ifs <;> linarith

/-- Witness for `p90_le_startProb` at `p = 1/2`, `m = 90`. -/
theorem p90_le_startProb_witness :
    (0 ≤ (1/2 : ℚ)) ∧ (p90App (1/2) 90 ≤ 1/2 ∧ p90Api (1/2) 90 ≤ 1/2) :=
  ⟨by norm_num, p90_le_startProb (1/2) 90 (by norm_num)⟩

/-- Claim C8 (confirmed): for either stage model, training with fewer
than 50 samples returns the insufficient-data error and leaves the model
state — `is_trained`, `feature_names` and the fitted artefacts —
exactly as it was (the guard precedes every mutation in the source). -/
theorem train_insufficient_data (mA : StartProbabilityModel)
    (mB : MinutesGivenStartModel) (d : Frame) (h : d.rows.length < 50) :
    mA.train d =
      (.error "Insufficient training data (need at least 50 samples)", mA) ∧
    mB.train d =
      (.error "Insufficient training data (need at least 50 samples)", mB) := by
  unfold StartProbabilityModel.train MinutesGivenStartModel.train
  rw [if_pos h, if_pos h]
  exact ⟨rfl, rfl⟩

/-- Witness for `train_insufficient_data`: a 40-row frame against
previously trained stage models. -/
theorem train_insufficient_data_witness :
    (Frame.mk stageAFeatureCols (List.replicate 40 [])).rows.length < 50 ∧
    (StartProbabilityModel.train
        ⟨stageAFeatureCols, true, some 12, some ([], [])⟩
        (Frame.mk stageAFeatureCols (List.replicate 40 [])) =
      (.error "Insufficient training data (need at least 50 samples)",
       ⟨stageAFeatureCols, true, some 12, some ([], [])⟩) ∧
     MinutesGivenStartModel.train
        ⟨"weibull", stageBFeatureCols, true, some ([], [], [])⟩
        (Frame.mk stageAFeatureCols (List.replicate 40 [])) =
      (.error "Insufficient training data (need at least 50 samples)",
       ⟨"weibull", stageBFeatureCols, true, some ([], [], [])⟩)) :=
  ⟨by decide,
   train_insufficient_data
     ⟨stageAFeatureCols, true, some 12, some ([], [])⟩
     ⟨"weibull", stageBFeatureCols, true, some ([], [], [])⟩
     (Frame.mk stageAFeatureCols (List.replicate 40 [])) (by decide)⟩

/-- Claim C4 (counterexample): the `api.py` path rejects a request whose
appearance list is empty with the HTTP 400 error "No appearance data
provided" — prediction does fail there for an entity with zero
history. -/
theorem zero_history_api_error_counterexample :
    engineerFeaturesApi "MID" 5 10 true [] ["role_lock"] ⟨8, 0⟩ =
      .error "No appearance data provided" := rfl

/-- Claim C4 (amended): zero history succeeds via the default/prior path
in `app.py` (default feature set, result flagged `sparse_data`) and in
the python-service feature builder (prior branch with start probability
0.5 and 70 average minutes when no team prior is supplied); the
`api.py` path instead rejects the request with a 400 error. -/
theorem zero_history_default_path (position : String) (isHome : Bool)
    (gameweek : Int) (price : ℚ) (now : NowTime)
    (apps : List Appearance) (pos2 : String)
    (hempty : extractHealthyStarts apps 8 = []) :
    engineerFeaturesApp [] position isHome gameweek price now =
      getDefaultFeatures position price now ∧
    sparseFlagMl [] = true ∧
    buildFeaturesForPrediction apps pos2 none none none 8 =
      PyFeatures.prior 0 (1/2) 70 := by
  refine ⟨rfl, rfl, ?_⟩
  unfold buildFeaturesForPrediction
  rw [hempty]
  simp

/-- Witness for `zero_history_default_path` on empty histories. -/
theorem zero_history_default_path_witness :
    extractHealthyStarts [] 8 = [] ∧
    (engineerFeaturesApp [] "MID" true 10 5 ⟨8, 0⟩ =
       getDefaultFeatures "MID" 5 ⟨8, 0⟩ ∧
     sparseFlagMl [] = true ∧
     buildFeaturesForPrediction [] "DEF" none none none 8 =
       PyFeatures.prior 0 (1/2) 70) :=
  ⟨rfl, zero_history_default_path "MID" true 10 5 ⟨8, 0⟩ [] "DEF" rfl⟩

/-- Claim C9 (counterexample): the feature vector handed to the models
depends on the wall clock — the same request evaluated in month 1 and in
month 2 yields different `month_norm` features, so the prediction path
is not a pure function of (history, profile, context) alone. -/
theorem clock_dependence_counterexample :
    engineerFeaturesApp [mkApp 1 1 true 90] "MID" true 10 5 ⟨1, 0⟩ ≠
    engineerFeaturesApp [mkApp 1 1 true 90] "MID" true 10 5 ⟨2, 0⟩ := by
  intro hEq
  have h2 := congrArg AppFeatures.month_norm hEq
  simp only [engineerFeaturesApp, engineerFeaturesAppCore,
    List.isEmpty_cons, Bool.false_eq_true, if_false] at h2
  norm_num at h2

/-- Claim C9 (amended): with the loaded model parameters fixed, the
prediction path is a pure function of the request and the current
wall-clock time; the clock enters only through `month_norm`,
`days_since_last_game` and `minutes_last_7_days` — two calls with
identical inputs agree on every other feature regardless of when they
run (and are identical when the clock reading is also identical). -/
theorem features_pure_modulo_clock (apps : List Appearance)
    (position : String) (isHome : Bool) (gameweek : Int) (price : ℚ)
    (now1 now2 : NowTime) :
    stripTime (engineerFeaturesApp apps position isHome gameweek price now1) =
    stripTime (engineerFeaturesApp apps position isHome gameweek price now2) := by
  cases apps <;> rfl

/-- Claim C1 (counterexample): no schema check guards prediction.  A
model fitted when `position_encoded` was absent (11-name schema) is
given inference data that instead lacks `minutes_std`: the name-sets
differ, yet `predict` silently rebuilds the matrix from the columns
present and returns it to the underlying model — no error is raised
because only the width (11 = 11) is validated by the scaler. -/
theorem schema_mismatch_silent_counterexample :
    (StartProbabilityModel.predict
        ⟨["num_healthy_starts", "weighted_avg_minutes",
          "last_3_avg_minutes", "last_5_avg_minutes", "minutes_std",
          "role_lock", "start_frequency", "congestion_flag",
          "intl_window_flag", "avg_days_rest", "viable_backups"],
         true, some 11, some ([], [])⟩
        (Frame.mk
          ["num_healthy_starts", "weighted_avg_minutes",
           "last_3_avg_minutes", "last_5_avg_minutes", "role_lock",
           "start_frequency", "congestion_flag", "intl_window_flag",
           "avg_days_rest", "viable_backups", "position_encoded"]
          [[]])).1 =
      .ok [[0, 0, 0, 0, 0, 0, 0, 0, 0, 0, 0]] ∧
    availableA
        ["num_healthy_starts", "weighted_avg_minutes",
         "last_3_avg_minutes", "last_5_avg_minutes", "role_lock",
         "start_frequency", "congestion_flag", "intl_window_flag",
         "avg_days_rest", "viable_backups", "position_encoded"] ≠
      ["num_healthy_starts", "weighted_avg_minutes",
       "last_3_avg_minutes", "last_5_avg_minutes", "minutes_std",
       "role_lock", "start_frequency", "congestion_flag",
       "intl_window_flag", "avg_days_rest", "viable_backups"] := by
  constructor
  · rfl
  · decide

/-- Claim C1 (amended): prediction performs no name or order validation
against the trained schema.  `prepare_features` silently recomputes the
feature list from whatever columns the inference data has, and predict
proceeds whenever the count matches the scaler's fitted width; the
`api.py` deriver likewise emits one value per schema name, filling
missing names with 0, so the vector it builds always has the schema's
length and order by construction. -/
theorem predict_silently_uses_available (m : StartProbabilityModel)
    (f : Frame) (position : String) (price : ℚ) (gameweek : Int)
    (isHome : Bool) (apps : List Appearance) (schema : List String)
    (now : NowTime) (h1 : m.is_trained = true)
    (h2 : m.scaler_dim = some (availableA f.columns).length)
    (h3 : apps.length ≠ 0) :
    (m.predict f).1 =
      .ok (f.rows.map (fun r => (availableA f.columns).map (lookup0 r))) ∧
    engineerFeaturesApi position price gameweek isHome apps schema now =
      .ok (schema.map
        (lookup0 (allFeaturesApi position price gameweek isHome
          (sortByGameweek apps) now))) ∧
    (schema.map
        (lookup0 (allFeaturesApi position price gameweek isHome
          (sortByGameweek apps) now))).length = schema.length := by
  refine ⟨?_, ?_, List.length_map _ _⟩
  · unfold StartProbabilityModel.predict StartProbabilityModel.prepareFeatures
    rw [h1]
    simp only [Bool.true_eq_false, if_false, h2, if_true]
  · unfold engineerFeaturesApi
    rw [if_neg h3]

/-- Witness for `predict_silently_uses_available` on a trained model, an
empty frame and a one-appearance request with an empty schema. -/
theorem predict_silently_uses_available_witness :
    ((⟨[], true, some 0, some ([], [])⟩ : StartProbabilityModel).is_trained
        = true) ∧
    ((⟨[], true, some 0, some ([], [])⟩ : StartProbabilityModel).scaler_dim
        = some (availableA (Frame.mk [] []).columns).length) ∧
    ([mkApp 1 1 true 90].length ≠ 0) ∧
    (((⟨[], true, some 0, some ([], [])⟩ : StartProbabilityModel).predict
          (Frame.mk [] [])).1 =
        .ok ((Frame.mk [] []).rows.map
          (fun r => (availableA (Frame.mk [] []).columns).map (lookup0 r))) ∧
     engineerFeaturesApi "MID" 5 10 true [mkApp 1 1 true 90] [] ⟨1, 0⟩ =
        .ok (([] : List String).map
          (lookup0 (allFeaturesApi "MID" 5 10 true
            (sortByGameweek [mkApp 1 1 true 90]) ⟨1, 0⟩))) ∧
     (([] : List String).map
          (lookup0 (allFeaturesApi "MID" 5 10 true
            (sortByGameweek [mkApp 1 1 true 90]) ⟨1, 0⟩))).length =
        ([] : List String).length) :=
  ⟨rfl, rfl, by decide,
   predict_silently_uses_available
     ⟨[], true, some 0, some ([], [])⟩ (Frame.mk [] [])
     "MID" 5 10 true [mkApp 1 1 true 90] [] ⟨1, 0⟩
     rfl rfl (by decide)⟩

end FPL
